import Mathlib

/-!
Verification of the agriwebb-rain data-relay job.

This file shallowly embeds the Python source (tempest.py, agriwebb.py,
main.py) into Lean 4 and proves the specification's testable properties
against the embedding.  JSON-decoded Python values are modelled by the
inductive `Json`; Python functions returning normally or raising are
modelled by `Except Unit` (the particular exception class does not matter
to any property, only whether an exception escapes).
-/

set_option maxRecDepth 2000

namespace AgriwebbRain

/-- A JSON-decoded Python value: None, bool, number, string, list or dict.
Numbers are modelled exactly by rationals; dicts by association lists in
insertion order with distinct keys (as produced by a JSON decoder). -/
inductive Json where
  | null : Json
  | bool (b : Bool) : Json
  | num (q : ℚ) : Json
  | str (s : String) : Json
  | arr (elems : List Json) : Json
  | obj (fields : List (String × Json)) : Json

/-- Python `d.get(k)` on a decoded dict: the value of the first binding of
the key, if any. -/
def lookupField (fields : List (String × Json)) (k : String) : Option Json :=
  match fields with
  | [] => none
  | (k', v) :: rest => if k' == k then some v else lookupField rest k

/-- Python truthiness of a JSON-decoded value. -/
def truthy : Json → Bool
  | .null => false
  | .bool b => b
  | .num q => q != 0
  | .str s => !s.isEmpty
  | .arr xs => !xs.isEmpty
  | .obj fs => !fs.isEmpty

/-- Python `j == "s"` for a decoded value `j` and a string literal:
true exactly when `j` is that string. -/
def jsonEqStr (j : Json) (s : String) : Bool :=
  match j with
  | .str t => t == s
  | _ => false

/-- Python `k in x` for a string `k`: key membership for dicts, element
membership for lists, substring test for strings; a TypeError for the
remaining types. -/
def pyIn (k : String) : Json → Except Unit Bool
  | .obj fs => .ok (fs.any (fun p => p.1 == k))
  | .arr xs => .ok (xs.any (fun x => jsonEqStr x k))
  | .str s => .ok (s.toList.tails.any (fun t => k.toList.isPrefixOf t))
  | _ => .error ()

/-- Python `x[k]` for a string key `k`: dict lookup (KeyError when the key
is missing); a TypeError for every other type. -/
def pySubscriptStr (x : Json) (k : String) : Except Unit Json :=
  match x with
  | .obj fs =>
    match lookupField fs k with
    | some v => .ok v
    | none => .error ()
  | _ => .error ()

/-- Python `len(x)`: defined for lists, strings and dicts; a TypeError for
the remaining types. -/
def pyLen : Json → Except Unit Nat
  | .arr xs => .ok xs.length
  | .str s => .ok s.length
  | .obj fs => .ok fs.length
  | _ => .error ()

/-- Python `x[-1]`: last element of a list (IndexError when empty), last
character of a string, KeyError for a dict (its keys here are strings),
TypeError otherwise. -/
def pyLastElem : Json → Except Unit Json
  | .arr xs =>
    match xs.getLast? with
    | some v => .ok v
    | none => .error ()
  | .str s =>
    match s.toList.getLast? with
    | some c => .ok (.str (String.mk [c]))
    | none => .error ()
  | _ => .error ()

/-- Python `xs[i]` for a list and a possibly negative integer index,
with Python's wrap-around for negative indices; IndexError out of range. -/
def pyIndex (xs : List Json) (i : Int) : Except Unit Json :=
  if 0 ≤ i then
    match xs.get? i.toNat with
    | some v => .ok v
    | none => .error ()
  else
    let j : Int := (xs.length : Int) + i
    if 0 ≤ j then
      match xs.get? j.toNat with
      | some v => .ok v
      | none => .error ()
    else .error ()

/-! ## tempest.py: `extract_precip_accum_local_yesterday` (lines 95-168)

The function's body is a prioritized probe over the response shape,
wrapped in a try/except that converts any exception into `None`.
Each probe step is embedded separately; `Except Unit` models a Python
exception escaping the step. -/

/-- The target key searched for throughout `extract_precip_accum_local_yesterday`. -/
def PRECIP_KEY : String := "precip_accum_local_yesterday"

/-- Lines 114-118 / 121-125: `x = api_response.get(name)` with an empty-dict
default, followed by
`if x and PRECIP_KEY in x: return x[PRECIP_KEY]`.  Used for `name` equal to
`summary` and to `obs_summary`, which are textually identical blocks in the
source.  `.ok (some v)` models `return v`; `.ok none` means fall through. -/
def checkMappingField (fields : List (String × Json)) (name : String) :
    Except Unit (Option Json) :=
  let x := (lookupField fields name).getD (Json.obj [])
  if truthy x then
    match pyIn PRECIP_KEY x with
    | .error e => .error e
    | .ok true => (pySubscriptStr x PRECIP_KEY).map some
    | .ok false => .ok none
  else .ok none

/-- Lines 113-118: the `summary` probe. -/
def checkSummary (fields : List (String × Json)) : Except Unit (Option Json) :=
  checkMappingField fields "summary"

/-- Lines 120-125: the `obs_summary` probe. -/
def checkObsSummary (fields : List (String × Json)) : Except Unit (Option Json) :=
  checkMappingField fields "obs_summary"

/-- Lines 127-154: the `obs` probe.  `obs = api_response.get('obs', [])`;
if truthy and non-empty, take `obs[-1]`; a dict last observation is probed
for the key directly; a non-empty list last observation is interpreted
through the response's `field_map` (index-to-name table) when that map is
truthy: the first entry whose name equals the key gives the index (parsed
with `int(...)`, a ValueError on failure), and the value is returned only
when the observation is long enough.  Every non-returning path falls
through with `.ok none`. -/
def checkObs (fields : List (String × Json)) : Except Unit (Option Json) :=
  let obs := (lookupField fields "obs").getD (Json.arr [])
  if truthy obs then
    match pyLen obs with
    | .error e => .error e
    | .ok n =>
      if n > 0 then
        match pyLastElem obs with
        | .error e => .error e
        | .ok latest =>
          match latest with
          | .obj lf =>
            if lf.any (fun p => p.1 == PRECIP_KEY) then
              (pySubscriptStr latest PRECIP_KEY).map some
            else .ok none
          | .arr elems =>
            if elems.length > 0 then
              let field_map := (lookupField fields "field_map").getD (Json.obj [])
              if truthy field_map then
                match field_map with
                | .obj fmf =>
                  match fmf.find? (fun p => jsonEqStr p.2 PRECIP_KEY) with
                  | some pair =>
                    match pair.1.toInt? with
                    | some fi =>
                      if (elems.length : Int) > fi then (pyIndex elems fi).map some
                      else .ok none
                    | none => .error ()
                  | none => .ok none
                | _ => .error ()
              else .ok none
            else .ok none
          | _ => .ok none
      else .ok none
  else .ok none

/-- Lines 156-160: the root-level probe:
`if PRECIP_KEY in api_response: return api_response[PRECIP_KEY]`. -/
def checkRoot (fields : List (String × Json)) : Except Unit (Option Json) :=
  if fields.any (fun p => p.1 == PRECIP_KEY) then
    (pySubscriptStr (Json.obj fields) PRECIP_KEY).map some
  else .ok none

/-- Lines 110-164: the body of the try-block.  For a dict response the four
probes run in priority order, first returned value wins; any response that
no probe claims, and any non-dict response, yields `Json.null`
(Python `None`). -/
def extractBody (api_response : Json) : Except Unit Json :=
  match api_response with
  | .obj fields =>
    match checkSummary fields with
    | .error e => .error e
    | .ok (some v) => .ok v
    | .ok none =>
      match checkObsSummary fields with
      | .error e => .error e
      | .ok (some v) => .ok v
      | .ok none =>
        match checkObs fields with
        | .error e => .error e
        | .ok (some v) => .ok v
        | .ok none =>
          match checkRoot fields with
          | .error e => .error e
          | .ok (some v) => .ok v
          | .ok none => .ok Json.null
  | _ => .ok Json.null

/-- Lines 95-168, the whole function: the `except Exception` handler at
lines 166-168 turns any exception from the body into `return None`.  The
`Except Unit` result type records that a Python function may in principle
raise; the theorems show this one never does. -/
def extract_precip_accum_local_yesterday (api_response : Json) : Except Unit Json :=
  match extractBody api_response with
  | .ok v => .ok v
  | .error _ => .ok Json.null

/-! ## tempest.py: normalization loop of `get_yesterday_rainfall_data` (lines 62-83)

The loop turns each raw observation into a wrapper record pairing a
best-effort timestamp with the original observation, skipping entries it
cannot normalize.  Non-list, non-dict entries are skipped with a logged
warning; an *empty* list entry is skipped with no warning at all. -/

/-- One entry of the `rainfall_observations` list built by the loop:
Python dict with keys `timestamp` and `observation`.  A Python `None`
timestamp is `Json.null`. -/
structure ObsRecord where
  timestamp : Json
  observation : Json

/-- Lines 76: `obs.get('timestamp') or obs.get('time') or obs.get('ts')` —
Python `or` keeps the first truthy operand, and `dict.get` of a missing key
is `None`. -/
def dictTimestamp (fs : List (String × Json)) : Json :=
  let a := (lookupField fs "timestamp").getD Json.null
  if truthy a then a else
    let b := (lookupField fs "time").getD Json.null
    if truthy b then b else (lookupField fs "ts").getD Json.null

/-- Lines 66-80, one iteration: a non-empty list observation yields a
record with `obs[0]` as timestamp; an empty list yields nothing (and no
warning); a dict yields a record with the `timestamp`/`time`/`ts` chain;
anything else yields nothing and one warning.  The second component counts
warnings logged by the iteration. -/
def normalizeOne (o : Json) : Option ObsRecord × Nat :=
  match o with
  | .arr elems =>
    if elems.length > 0 then
      (some ⟨(elems.head?).getD Json.null, o⟩, 0)
    else (none, 0)
  | .obj fs => (some ⟨dictTimestamp fs, o⟩, 0)
  | _ => (none, 1)

/-- Lines 62-83, the whole loop: the normalized `rainfall_observations`
list and the total number of warnings logged. -/
def normalizeObservations : List Json → List ObsRecord × Nat
  | [] => ([], 0)
  | o :: rest =>
    let step := normalizeOne o
    let restOut := normalizeObservations rest
    (match step.1 with
     | some rec => rec :: restOut.1
     | none => restOut.1,
     step.2 + restOut.2)

/-! ## agriwebb.py: sensor resolution and rainfall publication -/

/-- agriwebb.py line 17: the configured display name of the rain gauge. -/
def RAIN_GAUGE_NAME : String := "Tempest"

/-- agriwebb.py line 18. -/
def RAIN_GAUGE_UNIT : String := "inch"

/-- agriwebb.py line 19. -/
def RAIN_GAUGE_MODE : String := "cumulative"

/-- A map feature as returned by the farm-management GraphQL API
(`mapFeatures` selection set: id, name, type, farmId). -/
structure MapFeature where
  id : String
  name : String
  featureType : String
  farmId : String
  deriving DecidableEq

/-- The `mapFeatures` query issued at agriwebb.py lines 78-90: the remote
API returns the features whose type equals the fixed tag RAIN_GAUGE and
whose farmId equals the given farm, in server order.  `world` stands for
the farm-management system's map-feature state. -/
def mapFeaturesQuery (farm_id : String) (world : List MapFeature) : List MapFeature :=
  world.filter (fun f => f.featureType == "RAIN_GAUGE" && f.farmId == farm_id)

/-- agriwebb.py lines 70-118, `get_rain_gauge_sensor_id`: issues the
type/farm-filtered `mapFeatures` query and returns the first result's id
(lines 107-108), or `None` when the result list is null or empty
(lines 109-110). -/
def get_rain_gauge_sensor_id (farm_id : String) (world : List MapFeature) :
    Option String :=
  match mapFeaturesQuery farm_id world with
  | [] => none
  | f :: _ => some f.id

/-- A GraphQL error object as consumed by lines 188-190: `err.get('message',
str(err))` uses the `message` entry when present and the textual form of
the whole object otherwise. -/
structure GqlError where
  message : Option String
  reprStr : String
  deriving DecidableEq

/-- The decoded body of a transport-successful GraphQL POST: the optional
`errors` list (`'errors' in result` is `errors.isSome`) and the rest of
the payload. -/
structure GqlResponse where
  errors : Option (List GqlError)
  payload : Json

/-- Python `', '.join(xs)` as used at line 190. -/
def joinComma : List String → String
  | [] => ""
  | [m] => m
  | m :: rest => m ++ ", " ++ joinComma rest

/-- agriwebb.py lines 187-194: if the decoded body has an `errors` key, the
per-error messages are collected and a ValueError with the aggregated
message is raised; otherwise the body is returned. -/
def checkGraphQLErrors (result : GqlResponse) : Except String GqlResponse :=
  match result.errors with
  | some errs =>
    let error_messages := errs.map (fun err => err.message.getD err.reprStr)
    .error ("GraphQL errors: " ++ joinComma error_messages)
  | none => .ok result

/-- How many times `update_rainfall` invoked the creation mutation and the
publish mutation during one call. -/
structure CallTrace where
  creations : Nat
  publishes : Nat
  deriving DecidableEq

/-- agriwebb.py lines 121-203, `update_rainfall`.  Sensor resolution
(lines 137-146): look up the sensor; on a miss invoke the creation
operation once and look up again; a second miss raises the ValueError of
line 146 without any publish.  Otherwise the mutation is POSTed and its
decoded body is checked for embedded errors (lines 185-194).

`create` is the companion creation operation.  Modelled from the spec:
`create_rain_gauge` is called at line 141 but its definition is not under
src/; the spec (Sensor Resolver, section 4.3) describes it only as "a
single mutation call" that "provisions a new gauge when none is found", so
it is kept abstract as a transformer of the remote map-feature state.
`response` is the decoded body the publish POST returns; the resolved
sensor id only feeds the mutation text, which no claim inspects. -/
def update_rainfall (farm_id : String) (world : List MapFeature)
    (create : List MapFeature → List MapFeature) (response : GqlResponse) :
    Except String GqlResponse × CallTrace :=
  match get_rain_gauge_sensor_id farm_id world with
  | some _ => (checkGraphQLErrors response, ⟨0, 1⟩)
  | none =>
    match get_rain_gauge_sensor_id farm_id (create world) with
    | some _ => (checkGraphQLErrors response, ⟨1, 1⟩)
    | none =>
      (.error ("Rain gauge sensor ID not found for name: " ++ RAIN_GAUGE_NAME),
       ⟨1, 0⟩)

/-! ## main.py: the orchestrator (`lambda_handler`)

Arithmetic is modelled exactly over the rationals.  The source computes in
IEEE-754 doubles; for the values the numerical claim checks, the double
computation stays within one unit in the last place of the exact value and
the 3-decimal rounding maps both to the same result. -/

/-- main.py line 28: `MM_TO_INCHES = 1 / 25.4`. -/
def MM_TO_INCHES : ℚ := 1 / 25.4

/-- Mathematical floor of a rational, computed with integer floor
division. -/
def ratFloorZ (q : ℚ) : ℤ := q.num.fdiv q.den

/-- Round-half-to-even to the nearest integer, the tie-breaking rule of
Python's built-in `round`. -/
def roundHalfEven (x : ℚ) : ℤ :=
  let n := ratFloorZ x
  let frac := x - n
  if frac < 1 / 2 then n
  else if 1 / 2 < frac then n + 1
  else if n % 2 = 0 then n else n + 1

/-- Python `round(x, 3)` as used at main.py line 92, over exact
rationals. -/
def pyRound3 (x : ℚ) : ℚ := (roundHalfEven (x * 1000) : ℚ) / 1000

/-- main.py lines 121-130: the result record of the success branch, in
source key order. -/
def successResult (event_time : Json) (obsCount : Nat) (date_str : String)
    (mm inches : ℚ) : Json :=
  Json.obj
    [("status", .str "success"),
     ("message", .str "Successfully retrieved and updated rainfall data"),
     ("event_time", event_time),
     ("rainfall_mm", .num mm),
     ("rainfall_inches", .num inches),
     ("date", .str date_str),
     ("observations_count", .num obsCount),
     ("agriwebb_updated", .bool true)]

/-- main.py lines 135-142: the result record of the partial-success branch,
in source key order. -/
def partialResult (event_time : Json) (obsCount : Nat) : Json :=
  Json.obj
    [("status", .str "partial_success"),
     ("message", .str "Retrieved observations but could not extract rainfall amount"),
     ("event_time", event_time),
     ("observations_count", .num obsCount),
     ("rainfall_mm", Json.null),
     ("agriwebb_updated", .bool false)]

/-- main.py lines 88-142, the branch on the extracted value.  `rainfall_mm`
is the value `extract_precip_accum_local_yesterday` returned;
`if rainfall_mm is not None` sends `Json.null` to the partial-success
branch.  On the publish branch the value is converted
(`round(rainfall_mm * MM_TO_INCHES, 3)`, line 92; a Python bool is
numeric, any other non-numeric value makes the multiplication raise a
TypeError that aborts the invocation) and `update_rainfall` is invoked,
abstracted here as `publish`; a publish exception likewise aborts.  The
second component counts publish invocations. -/
def lambda_handler_core (event_time : Json) (obsCount : Nat) (date_str : String)
    (rainfall_mm : Json) (publish : ℚ → Except String Json) :
    Except String Json × Nat :=
  match rainfall_mm with
  | .null => (.ok (partialResult event_time obsCount), 0)
  | .num mm =>
    let inches := pyRound3 (mm * MM_TO_INCHES)
    (match publish inches with
     | .ok _ => .ok (successResult event_time obsCount date_str mm inches)
     | .error e => .error e, 1)
  | .bool b =>
    let mm : ℚ := if b then 1 else 0
    let inches := pyRound3 (mm * MM_TO_INCHES)
    (match publish inches with
     | .ok _ => .ok (successResult event_time obsCount date_str mm inches)
     | .error e => .error e, 1)
  | _ => (.error "TypeError: unsupported operand type for *", 0)

/-- main.py line 86 followed by lines 88-142: the handler extracts the
rainfall value from the raw response and branches on it.  The extractor
never raises (proved below), so the error arm is unreachable. -/
def lambda_handler_post_fetch (event_time : Json) (obsCount : Nat)
    (date_str : String) (api_response : Json)
    (publish : ℚ → Except String Json) : Except String Json × Nat :=
  match extract_precip_accum_local_yesterday api_response with
  | .ok v => lambda_handler_core event_time obsCount date_str v publish
  | .error _ => (.error "unreachable", 0)

/-! ## Shared helper notions and lemmas -/

/-- `small` occurs contiguously inside `big` (substring at the character
level). -/
def strContains (big small : String) : Prop :=
  ∃ pre post : List Char, big.data = pre ++ small.data ++ post

/-- A successful dict lookup means the membership test of line 115/122/135
succeeds. -/
theorem lookupField_imp_any (fs : List (String × Json)) (k : String) (v : Json)
    (h : lookupField fs k = some v) : fs.any (fun p => p.1 == k) = true := by
  induction fs with
  | nil => simp [lookupField] at h
  | cons p rest ih =>
    simp only [lookupField] at h
    by_cases hk : p.1 == k
    · simp [List.any_cons, hk]
    · rw [if_neg hk] at h
      simp [List.any_cons, hk, ih h]

/-- Every element of the joined list occurs contiguously in the join. -/
theorem joinComma_contains (l : List String) (x : String) (h : x ∈ l) :
    strContains (joinComma l) x := by
  induction l with
  | nil => simp at h
  | cons m rest ih =>
    cases rest with
    | nil =>
      have hx : x = m := by simpa using h
      subst hx
      exact ⟨[], [], by simp [joinComma]⟩
    | cons m2 rest2 =>
      rcases List.mem_cons.mp h with hx | hx
      · subst hx
        refine ⟨[], [',', ' '] ++ (joinComma (m2 :: rest2)).data, ?_⟩
        simp [joinComma, String.data_append, List.append_assoc]
      · obtain ⟨pre, post, hd⟩ := ih hx
        refine ⟨m.data ++ [',', ' '] ++ pre, post, ?_⟩
        simp [joinComma, String.data_append, hd, List.append_assoc]

/-- The normalization loop never produces more records than it consumed
raw observations. -/
theorem normalizeObservations_length_le (l : List Json) :
    (normalizeObservations l).1.length ≤ l.length := by
  induction l with
  | nil => simp [normalizeObservations]
  | cons o rest ih =>
    simp only [normalizeObservations]
    cases (normalizeOne o).1 with
    | some rec => simpa using Nat.succ_le_succ ih
    | none => simpa using Nat.le_succ_of_le ih

/-! ## Claim theorems -/

/-- C7: for every input, the extractor returns a value or the absence
marker `Json.null`; no exception ever escapes it (the try/except of lines
110-168 converts every internal exception into `None`). -/
theorem c7_extractor_never_raises (j : Json) :
    ∃ v, extract_precip_accum_local_yesterday j = .ok v := by
  cases h : extractBody j with
  | ok v => exact ⟨v, by simp [extract_precip_accum_local_yesterday, h]⟩
  | error e => exact ⟨Json.null, by simp [extract_precip_accum_local_yesterday, h]⟩

/-- C3: when both the `summary` sub-mapping and the `obs_summary`
sub-mapping contain `precip_accum_local_yesterday`, the extractor returns
the value stored under `summary` (the higher-priority probe), never the one
under `obs_summary`. -/
theorem c3_summary_beats_obs_summary (fields sf osf : List (String × Json))
    (v w : Json)
    (hs : lookupField fields "summary" = some (Json.obj sf))
    (hv : lookupField sf PRECIP_KEY = some v)
    (ho : lookupField fields "obs_summary" = some (Json.obj osf))
    (hw : lookupField osf PRECIP_KEY = some w) :
    extract_precip_accum_local_yesterday (Json.obj fields) = .ok v := by
  have hany := lookupField_imp_any sf PRECIP_KEY v hv
  have hne : sf.isEmpty = false := by
    cases sf with
    | nil => simp [lookupField] at hv
    | cons a l => rfl
  simp [extract_precip_accum_local_yesterday, extractBody, checkSummary,
        checkMappingField, hs, truthy, hne, pyIn, hany, pySubscriptStr, hv,
        Except.map]

/-- Witness for C3 at a concrete response carrying the key in both
`summary` (value 7) and `obs_summary` (value 9): the extractor returns 7. -/
theorem c3_summary_beats_obs_summary_witness :
    extract_precip_accum_local_yesterday
      (Json.obj [("summary", Json.obj [(PRECIP_KEY, Json.num 7)]),
                 ("obs_summary", Json.obj [(PRECIP_KEY, Json.num 9)])]) =
      .ok (Json.num 7) :=
  c3_summary_beats_obs_summary
    [("summary", Json.obj [(PRECIP_KEY, Json.num 7)]),
     ("obs_summary", Json.obj [(PRECIP_KEY, Json.num 9)])]
    [(PRECIP_KEY, Json.num 7)] [(PRECIP_KEY, Json.num 9)]
    (Json.num 7) (Json.num 9) rfl rfl rfl rfl

/-- The concrete response refuting C1 as stated: `obs` is present and
non-empty, its last element is an array, there is no `field_map`, no
`summary` and no `obs_summary` — but the key sits at the top level. -/
def c1fields : List (String × Json) :=
  [("obs", Json.arr [Json.arr [Json.num 1]]), (PRECIP_KEY, Json.num 5)]

/-- C1 counterexample: on `c1fields` every premise of the claim holds
(both mapping probes and the obs probe fall through, and obs is truthy),
yet the extractor returns the top-level value 5, not absence: the code
falls through from the obs probe to the root-level probe of lines 156-160
instead of returning `None`. -/
theorem c1_counterexample :
    checkSummary c1fields = .ok none ∧
    checkObsSummary c1fields = .ok none ∧
    truthy ((lookupField c1fields "obs").getD (Json.arr [])) = true ∧
    checkObs c1fields = .ok none ∧
    extract_precip_accum_local_yesterday (Json.obj c1fields) = .ok (Json.num 5) ∧
    Json.num 5 ≠ Json.null :=
  ⟨rfl, rfl, rfl, rfl, rfl, fun h => Json.noConfusion h⟩

/-- C1 as amended: if no probe produces a value — in particular the
`summary`, `obs_summary` and `obs` probes fall through on a response whose
`obs` is present and non-empty, and additionally the root-level probe of
lines 156-160 also falls through — then the extractor returns absence
(`Json.null`). -/
theorem c1_absence_when_no_probe_matches (fields : List (String × Json))
    (hobs : truthy ((lookupField fields "obs").getD (Json.arr [])) = true)
    (h1 : ∀ v, checkSummary fields ≠ .ok (some v))
    (h2 : ∀ v, checkObsSummary fields ≠ .ok (some v))
    (h3 : ∀ v, checkObs fields ≠ .ok (some v))
    (h4 : ∀ v, checkRoot fields ≠ .ok (some v)) :
    extract_precip_accum_local_yesterday (Json.obj fields) = .ok Json.null := by
  cases e1 : checkSummary fields with
  | error e => simp [extract_precip_accum_local_yesterday, extractBody, e1]
  | ok o1 =>
    cases o1 with
    | some v => exact absurd e1 (h1 v)
    | none =>
      cases e2 : checkObsSummary fields with
      | error e => simp [extract_precip_accum_local_yesterday, extractBody, e1, e2]
      | ok o2 =>
        cases o2 with
        | some v => exact absurd e2 (h2 v)
        | none =>
          cases e3 : checkObs fields with
          | error e =>
            simp [extract_precip_accum_local_yesterday, extractBody, e1, e2, e3]
          | ok o3 =>
            cases o3 with
            | some v => exact absurd e3 (h3 v)
            | none =>
              cases e4 : checkRoot fields with
              | error e =>
                simp [extract_precip_accum_local_yesterday, extractBody, e1, e2, e3, e4]
              | ok o4 =>
                cases o4 with
                | some v => exact absurd e4 (h4 v)
                | none =>
                  simp [extract_precip_accum_local_yesterday, extractBody, e1, e2, e3, e4]

/-- Witness for the amended C1 at a concrete response: `obs` non-empty,
last element an array, no `field_map`, no `summary`/`obs_summary`, and no
top-level key — the extractor returns absence. -/
theorem c1_absence_when_no_probe_matches_witness :
    truthy ((lookupField [("obs", Json.arr [Json.arr [Json.num 1]])] "obs").getD
      (Json.arr [])) = true ∧
    (∀ v, checkSummary [("obs", Json.arr [Json.arr [Json.num 1]])] ≠ .ok (some v)) ∧
    (∀ v, checkObsSummary [("obs", Json.arr [Json.arr [Json.num 1]])] ≠ .ok (some v)) ∧
    (∀ v, checkObs [("obs", Json.arr [Json.arr [Json.num 1]])] ≠ .ok (some v)) ∧
    (∀ v, checkRoot [("obs", Json.arr [Json.arr [Json.num 1]])] ≠ .ok (some v)) ∧
    extract_precip_accum_local_yesterday
      (Json.obj [("obs", Json.arr [Json.arr [Json.num 1]])]) = .ok Json.null := by
  have h1 : ∀ v, checkSummary [("obs", Json.arr [Json.arr [Json.num 1]])] ≠ .ok (some v) :=
    fun v h => Option.noConfusion (Except.ok.inj h)
  have h2 : ∀ v, checkObsSummary [("obs", Json.arr [Json.arr [Json.num 1]])] ≠ .ok (some v) :=
    fun v h => Option.noConfusion (Except.ok.inj h)
  have h3 : ∀ v, checkObs [("obs", Json.arr [Json.arr [Json.num 1]])] ≠ .ok (some v) :=
    fun v h => Option.noConfusion (Except.ok.inj h)
  have h4 : ∀ v, checkRoot [("obs", Json.arr [Json.arr [Json.num 1]])] ≠ .ok (some v) :=
    fun v h => Option.noConfusion (Except.ok.inj h)
  exact ⟨rfl, h1, h2, h3, h4,
    c1_absence_when_no_probe_matches [("obs", Json.arr [Json.arr [Json.num 1]])]
      rfl h1 h2 h3 h4⟩

/-- The map-feature state refuting C2: one feature of the rain-gauge type
on the right farm, but with a display name different from the configured
constant. -/
def c2world : List MapFeature :=
  [⟨"mf-1", "SomeOtherGauge", "RAIN_GAUGE", "farm-1"⟩]

/-- C2 counterexample: the lookup returns the identifier of a feature
whose name differs from the configured `RAIN_GAUGE_NAME`: the GraphQL
query of lines 78-90 filters only on type and farm, never on name, so a
right-type wrong-name feature *is* returned. -/
theorem c2_counterexample :
    get_rain_gauge_sensor_id "farm-1" c2world = some "mf-1" ∧
    (∀ f ∈ c2world, f.name ≠ RAIN_GAUGE_NAME) := by
  refine ⟨rfl, ?_⟩
  intro f hf
  have : f = ⟨"mf-1", "SomeOtherGauge", "RAIN_GAUGE", "farm-1"⟩ := by
    simpa [c2world] using hf
  subst this
  decide

/-- C2 as amended: the identifier returned is that of the *first* map
feature matching the fixed rain-gauge type tag and the farm identifier;
the configured display name plays no part in the selection (renaming every
feature leaves the result unchanged). -/
theorem c2_lookup_by_type_and_farm_only (farm_id : String)
    (world : List MapFeature) (rename : MapFeature → String) :
    (∀ sid, get_rain_gauge_sensor_id farm_id world = some sid →
       ∃ f, f ∈ world ∧ f.id = sid ∧ f.featureType = "RAIN_GAUGE" ∧
         f.farmId = farm_id) ∧
    get_rain_gauge_sensor_id farm_id
        (world.map (fun f => ⟨f.id, rename f, f.featureType, f.farmId⟩)) =
      get_rain_gauge_sensor_id farm_id world := by
  constructor
  · intro sid hsid
    cases hq : mapFeaturesQuery farm_id world with
    | nil => simp [get_rain_gauge_sensor_id, hq] at hsid
    | cons f rest =>
      have hid : f.id = sid := by
        simpa [get_rain_gauge_sensor_id, hq] using hsid
      have hfmem : f ∈ mapFeaturesQuery farm_id world := by
        rw [hq]; exact List.mem_cons_self f rest
      have hfilter := List.mem_filter.mp hfmem
      have hpred := hfilter.2
      rw [Bool.and_eq_true] at hpred
      exact ⟨f, hfilter.1, hid, by simpa using hpred.1, by simpa using hpred.2⟩
  · have hq : mapFeaturesQuery farm_id
        (world.map (fun f => ⟨f.id, rename f, f.featureType, f.farmId⟩)) =
        (mapFeaturesQuery farm_id world).map
          (fun f => ⟨f.id, rename f, f.featureType, f.farmId⟩) := by
      induction world with
      | nil => rfl
      | cons f rest ih =>
        by_cases hp : (f.featureType == "RAIN_GAUGE" && f.farmId == farm_id) = true
        · simp [mapFeaturesQuery, List.filter_cons, hp] at ih ⊢
          exact ih
        · simp [mapFeaturesQuery, List.filter_cons, hp] at ih ⊢
          exact ih
    unfold get_rain_gauge_sensor_id
    rw [hq]
    cases mapFeaturesQuery farm_id world with
    | nil => rfl
    | cons f rest => rfl

/-- Witness for the amended C2 at the concrete state `c2world`: the
returned id belongs to a type- and farm-matched feature, and renaming
every feature does not change the outcome. -/
theorem c2_lookup_by_type_and_farm_only_witness :
    (∃ f, f ∈ c2world ∧ f.id = "mf-1" ∧ f.featureType = "RAIN_GAUGE" ∧
       f.farmId = "farm-1") ∧
    get_rain_gauge_sensor_id "farm-1"
        (c2world.map (fun f => ⟨f.id, "Renamed", f.featureType, f.farmId⟩)) =
      get_rain_gauge_sensor_id "farm-1" c2world := by
  have h := c2_lookup_by_type_and_farm_only "farm-1" c2world (fun _ => "Renamed")
  exact ⟨h.1 "mf-1" rfl, h.2⟩

/-- C4: when the initial sensor lookup finds nothing, the creation
operation is invoked exactly once, and if the post-creation lookup still
finds nothing, `update_rainfall` raises the configuration ValueError of
line 146 without attempting the publish mutation. -/
theorem c4_create_once_then_config_error (farm_id : String)
    (world : List MapFeature) (create : List MapFeature → List MapFeature)
    (response : GqlResponse)
    (h : get_rain_gauge_sensor_id farm_id world = none) :
    (update_rainfall farm_id world create response).2.creations = 1 ∧
    (get_rain_gauge_sensor_id farm_id (create world) = none →
       update_rainfall farm_id world create response =
         (.error ("Rain gauge sensor ID not found for name: " ++ RAIN_GAUGE_NAME),
          ⟨1, 0⟩)) := by
  constructor
  · cases h2 : get_rain_gauge_sensor_id farm_id (create world) with
    | none => simp [update_rainfall, h, h2]
    | some sid => simp [update_rainfall, h, h2]
  · intro h2
    simp [update_rainfall, h, h2]

/-- Witness for C4 at a concrete state: an empty map-feature world and a
creation operation whose effect is not yet visible to the second lookup. -/
theorem c4_create_once_then_config_error_witness :
    get_rain_gauge_sensor_id "farm-1" [] = none ∧
    (update_rainfall "farm-1" [] (fun w => w) ⟨none, Json.null⟩).2.creations = 1 ∧
    update_rainfall "farm-1" [] (fun w => w) ⟨none, Json.null⟩ =
      (.error ("Rain gauge sensor ID not found for name: " ++ RAIN_GAUGE_NAME),
       ⟨1, 0⟩) := by
  have h0 : get_rain_gauge_sensor_id "farm-1" [] = none := rfl
  have h := c4_create_once_then_config_error "farm-1" [] (fun w => w)
    ⟨none, Json.null⟩ h0
  exact ⟨h0, h.1, h.2 h0⟩

/-- C5: a transport-successful publish whose decoded body carries a
non-empty `errors` list fails with one aggregated error whose message
contains every embedded error string (each entry's `message`, or its
textual form when the entry has none). -/
theorem c5_aggregated_error_contains_all (farm_id : String)
    (world : List MapFeature) (create : List MapFeature → List MapFeature)
    (errs : List GqlError) (payload : Json) (sid : String)
    (hsensor : get_rain_gauge_sensor_id farm_id world = some sid)
    (hne : errs ≠ []) :
    ∃ msg,
      (update_rainfall farm_id world create ⟨some errs, payload⟩).1 =
        .error msg ∧
      ∀ err ∈ errs, strContains msg (err.message.getD err.reprStr) := by
  refine ⟨"GraphQL errors: " ++
    joinComma (errs.map (fun e => e.message.getD e.reprStr)), ?_, ?_⟩
  · simp [update_rainfall, hsensor, checkGraphQLErrors]
  · intro err herr
    have hmem : err.message.getD err.reprStr ∈
        errs.map (fun e => e.message.getD e.reprStr) :=
      List.mem_map_of_mem _ herr
    obtain ⟨pre, post, hd⟩ := joinComma_contains _ _ hmem
    refine ⟨"GraphQL errors: ".data ++ pre, post, ?_⟩
    simp [String.data_append, hd, List.append_assoc]

/-- Witness for C5 at a concrete state and response: two embedded errors,
one with a `message` entry and one without; both strings occur in the
aggregated message. -/
theorem c5_aggregated_error_contains_all_witness :
    get_rain_gauge_sensor_id "farm-1" c2world = some "mf-1" ∧
    ([⟨some "boom", "err-repr-1"⟩, ⟨none, "err-repr-2"⟩] : List GqlError) ≠ [] ∧
    ∃ msg,
      (update_rainfall "farm-1" c2world (fun w => w)
        ⟨some [⟨some "boom", "err-repr-1"⟩, ⟨none, "err-repr-2"⟩],
         Json.null⟩).1 = .error msg ∧
      ∀ err ∈ ([⟨some "boom", "err-repr-1"⟩, ⟨none, "err-repr-2"⟩] : List GqlError),
        strContains msg (err.message.getD err.reprStr) := by
  refine ⟨rfl, by simp, ?_⟩
  exact c5_aggregated_error_contains_all "farm-1" c2world (fun w => w)
    [⟨some "boom", "err-repr-1"⟩, ⟨none, "err-repr-2"⟩] Json.null "mf-1"
    rfl (by simp)

/-- C9: failure of the publish check is decided by the presence of the
`errors` key, not by the list being non-empty: any body with the key
fails, and an empty list yields the aggregated message with no error
strings at all. -/
theorem c9_errors_key_presence (r : GqlResponse) (payload : Json) :
    (r.errors.isSome = true → ∃ m, checkGraphQLErrors r = .error m) ∧
    checkGraphQLErrors ⟨some [], payload⟩ = .error "GraphQL errors: " := by
  constructor
  · intro h
    cases hr : r.errors with
    | some errs =>
      exact ⟨"GraphQL errors: " ++
        joinComma (errs.map (fun err => err.message.getD err.reprStr)),
        by simp [checkGraphQLErrors, hr]⟩
    | none => rw [hr] at h; simp at h
  · show Except.error ("GraphQL errors: " ++ joinComma []) = _
    simp [joinComma]

/-- Witness for C9 at a concrete body with a one-element error list. -/
theorem c9_errors_key_presence_witness :
    (GqlResponse.mk (some [⟨some "e1", "r1"⟩]) Json.null).errors.isSome = true ∧
    (∃ m, checkGraphQLErrors ⟨some [⟨some "e1", "r1"⟩], Json.null⟩ = .error m) ∧
    checkGraphQLErrors ⟨some [], Json.null⟩ = .error "GraphQL errors: " := by
  have h := c9_errors_key_presence ⟨some [⟨some "e1", "r1"⟩], Json.null⟩ Json.null
  exact ⟨rfl, h.1 rfl, h.2⟩

/-- Projection of a field of a JSON object result record. -/
def jsonGetField (j : Json) (k : String) : Option Json :=
  match j with
  | .obj fs => lookupField fs k
  | _ => none

/-- C6: when the extractor returns absence, the orchestrator produces the
partial-success record — status `partial_success`, `agriwebb_updated`
false, `rainfall_mm` null — and never invokes the publish operation. -/
theorem c6_absence_skips_publish (event_time : Json) (obsCount : Nat)
    (date_str : String) (api_response : Json)
    (publish : ℚ → Except String Json)
    (h : extract_precip_accum_local_yesterday api_response = .ok Json.null) :
    lambda_handler_post_fetch event_time obsCount date_str api_response publish =
      (.ok (partialResult event_time obsCount), 0) ∧
    jsonGetField (partialResult event_time obsCount) "status" =
      some (.str "partial_success") ∧
    jsonGetField (partialResult event_time obsCount) "agriwebb_updated" =
      some (.bool false) ∧
    jsonGetField (partialResult event_time obsCount) "rainfall_mm" =
      some Json.null := by
  refine ⟨?_, rfl, rfl, rfl⟩
  simp [lambda_handler_post_fetch, h, lambda_handler_core]

/-- Witness for C6 at a concrete empty-object response (on which the
extractor returns absence) and an arbitrary concrete publish stub. -/
theorem c6_absence_skips_publish_witness :
    extract_precip_accum_local_yesterday (Json.obj []) = .ok Json.null ∧
    lambda_handler_post_fetch (Json.str "t") 3 "2026-10-11" (Json.obj [])
        (fun _ => .ok Json.null) =
      (.ok (partialResult (Json.str "t") 3), 0) := by
  have h0 : extract_precip_accum_local_yesterday (Json.obj []) = .ok Json.null := rfl
  exact ⟨h0,
    (c6_absence_skips_publish (Json.str "t") 3 "2026-10-11" (Json.obj [])
      (fun _ => .ok Json.null) h0).1⟩

/-- Rounding an integer-valued rational is the identity. -/
theorem roundHalfEven_intCast (n : ℤ) : roundHalfEven (n : ℚ) = n := by
  have hfl : ratFloorZ (n : ℚ) = n := by
    unfold ratFloorZ
    simp [Rat.num_intCast, Rat.den_intCast, Int.fdiv_one]
  unfold roundHalfEven
  rw [hfl]
  norm_num

/-- C8: the orchestrator's mm-to-inches conversion (multiply by
`MM_TO_INCHES`, round to 3 decimal places) maps 25.4 mm to exactly 1.0
inch and 0 mm to exactly 0.0 inches. -/
theorem c8_conversion_endpoints :
    pyRound3 ((25.4 : ℚ) * MM_TO_INCHES) = 1 ∧
    pyRound3 ((0 : ℚ) * MM_TO_INCHES) = 0 := by
  have h254 : (25.4 : ℚ) * MM_TO_INCHES = 1 := by norm_num [MM_TO_INCHES]
  have h0 : (0 : ℚ) * MM_TO_INCHES = 0 := by ring
  rw [h254, h0]
  constructor
  · unfold pyRound3
    have h1 : ((1 : ℚ) * 1000) = ((1000 : ℤ) : ℚ) := by norm_num
    rw [h1, roundHalfEven_intCast]
    norm_num
  · unfold pyRound3
    have h1 : ((0 : ℚ) * 1000) = ((0 : ℤ) : ℚ) := by norm_num
    rw [h1, roundHalfEven_intCast]
    norm_num

/-- C10: an empty-array raw observation is dropped silently by the
fetcher's normalization loop — the normalized records and the warning
count are those of the list without it — and consequently the normalized
list (hence the reported `observations_count`) is strictly shorter than
the raw `obs` list. -/
theorem c10_empty_array_dropped_silently (pre post : List Json) :
    normalizeObservations (pre ++ Json.arr [] :: post) =
      normalizeObservations (pre ++ post) ∧
    (normalizeObservations (pre ++ Json.arr [] :: post)).1.length <
      (pre ++ Json.arr [] :: post).length := by
  have h1 : normalizeObservations (pre ++ Json.arr [] :: post) =
      normalizeObservations (pre ++ post) := by
    induction pre with
    | nil => simp [normalizeObservations, normalizeOne]
    | cons o rest ih => simp [normalizeObservations, ih]
  refine ⟨h1, ?_⟩
  rw [h1]
  have h2 := normalizeObservations_length_le (pre ++ post)
  have h3 : (pre ++ post).length < (pre ++ Json.arr [] :: post).length := by
    simp [List.length_append]
  exact Nat.lt_of_le_of_lt h2 h3

end AgriwebbRain
